import Mathlib

/-!
Shallow embedding of the core of `minecraft-username-finder-ipv6`
(src/minecraft-ipv6/src/main.rs): the client pool, the availability
probe `check_account_exists`, the claim attempter `attempt_claim`,
one round of the monitor loop `monitor_uuids`, and the token loader
`load_tokens_from_file`.

Network I/O is modelled by explicit response functions (a transport
error message or an HTTP status code as a `Nat`); randomness (the
`choose` over the client slice) is modelled by an explicit index
argument reduced modulo the pool size; a Rust panic (the `.unwrap()`
on `clients.choose(..)`) is modelled as `none`.
-/

set_option autoImplicit false

namespace MC

/-- Terminal colors used by the monitor loop for a result's display
classification (`crossterm::style::Color`). -/
inductive Color where
  | red
  | green
  | white
  | cyan
  | darkGrey
deriving DecidableEq, Repr

/-- One HTTP client of the pool, as configured in `NameChecker::new`:
10 s timeout, 60 s TCP keepalive, 60 s idle-pool timeout, at most 50
idle connections per host, bound to one local source address. -/
structure Client where
  timeoutSecs : Nat
  tcpKeepaliveSecs : Nat
  poolIdleTimeoutSecs : Nat
  poolMaxIdlePerHost : Nat
  localAddress : String
deriving DecidableEq, Repr

/-- `Client::builder()...build()` for one source address
(`NameChecker::new`, main.rs lines 33-42). -/
def buildClient (addr : String) : Client :=
  { timeoutSecs := 10
    tcpKeepaliveSecs := 60
    poolIdleTimeoutSecs := 60
    poolMaxIdlePerHost := 50
    localAddress := addr }

/-- The `NameChecker` struct: the client pool, the ordered credential
list and the source addresses (main.rs lines 22-26). -/
structure NameChecker where
  clients : List Client
  auth_tokens : List String
  ip_addresses : List String
deriving DecidableEq, Repr

/-- `NameChecker::new` (main.rs lines 29-51): one client per supplied
source address. -/
def NameChecker.new (auth_tokens : List String) (ip_addresses : List String) :
    NameChecker :=
  { clients := ip_addresses.map buildClient
    auth_tokens := auth_tokens
    ip_addresses := ip_addresses }

deriving instance DecidableEq for Except

/-- A network response: a transport-level error message (the `?` on
`send().await`) or the HTTP status code of the response. -/
abbrev NetResponse := Except String Nat

/-- `self.clients.choose(&mut rand::thread_rng())`: uniform random
selection from the slice, `none` on an empty slice. The random draw
is the explicit index `k`, reduced modulo the pool size. -/
def chooseClient (clients : List Client) (k : Nat) : Option Client :=
  clients[k % clients.length]?

/-- `NameChecker::check_account_exists` (main.rs lines 53-66): pick a
random client (`.unwrap()`: `none` models the panic on an empty pool),
issue the profile lookup for `uuid`, and return
`(status == NO_CONTENT, status)`; a transport error propagates as
`Except.error`. The response is `probe uuid`. -/
def checkAccountExists (clients : List Client) (k : Nat)
    (probe : String → NetResponse) (uuid : String) :
    Option (Except String (Bool × Nat)) :=
  match chooseClient clients k with
  | none => none
  | some _ =>
    some (match probe uuid with
      | Except.error e => Except.error e
      | Except.ok status => Except.ok (status == 204, status))

/-- The PUT request `attempt_claim` sends: the claim URL for the name
and the `Authorization` header value. -/
structure ClaimRequest where
  url : String
  authorization : String
deriving DecidableEq, Repr

/-- The claim endpoint URL for a name (main.rs lines 73-76). -/
def claimUrl (name : String) : String :=
  "https://api.minecraftservices.com/minecraft/profile/name/" ++ name

/-- `NameChecker::attempt_claim` (main.rs lines 68-86): with the first
credential (`auth_tokens.get(0)`) pick a random client (`.unwrap()`:
`none` models the panic on an empty pool), send the PUT with the
bearer header, and return `(status == OK, status)`; with no credential,
return the configuration error without touching the network. The
second component lists the HTTP requests the call issued. -/
def attemptClaim (clients : List Client) (k : Nat)
    (auth_tokens : List String) (claim : ClaimRequest → NetResponse)
    (name : String) :
    Option (Except String (Bool × Nat)) × List ClaimRequest :=
  match auth_tokens[0]? with
  | some auth_token =>
    match chooseClient clients k with
    | none => (none, [])
    | some _ =>
      let req : ClaimRequest :=
        { url := claimUrl name, authorization := "Bearer " ++ auth_token }
      match claim req with
      | Except.error e => (some (Except.error e), [req])
      | Except.ok status => (some (Except.ok (status == 200, status)), [req])
  | none => (some (Except.error "No authentication tokens available"), [])

/-- The per-target tuple produced by one monitor task
(main.rs lines 99-136): name, uuid, human-readable status text, the
`is_important` emphasis flag, and the display color. -/
structure RoundResult where
  name : String
  uuid : String
  statusText : String
  is_important : Bool
  statusColor : Color
deriving DecidableEq, Repr

/-- One task of the monitor round (the async block of `monitor_uuids`,
main.rs lines 99-136): probe the uuid, then classify. A 429 probe
status short-circuits to the red rate-limited tuple; an available name
triggers `attempt_claim`; anything else reports the raw status.
First component: the produced tuple (`none` models a panic); second
component: whether `attempt_claim` was called. -/
def monitorTask (clients : List Client) (kCheck kClaim : Nat)
    (auth_tokens : List String) (probe : String → NetResponse)
    (claim : ClaimRequest → NetResponse) (name uuid : String) :
    Option RoundResult × Bool :=
  match checkAccountExists clients kCheck probe uuid with
  | none => (none, false)
  | some (Except.error e) =>
    (some { name := name, uuid := uuid, statusText := "ERROR: " ++ e
            is_important := false, statusColor := Color.white }, false)
  | some (Except.ok (is_available, check_status)) =>
    if check_status == 429 then
      (some { name := name, uuid := uuid, statusText := toString check_status
              is_important := false, statusColor := Color.red }, false)
    else if is_available then
      (match attemptClaim clients kClaim auth_tokens claim name with
        | (none, _) => none
        | (some (Except.ok (claimed, claim_status)), _) =>
          some { name := name, uuid := uuid
                 statusText :=
                   if claimed then
                     "CLAIMED (" ++ toString claim_status ++ ")"
                   else
                     "FAILED TO CLAIM (" ++ toString claim_status ++ ")"
                 is_important := true, statusColor := Color.green }
        | (some (Except.error e), _) =>
          some { name := name, uuid := uuid, statusText := "ERROR: " ++ e
                 is_important := false, statusColor := Color.white },
        true)
    else
      (some { name := name, uuid := uuid, statusText := toString check_status
              is_important := false, statusColor := Color.white }, false)

/-- One round of `monitor_uuids` (main.rs lines 91-151): one task per
entry of the round's snapshot of the target map. `rnd` supplies the
two random client draws of a target's task. -/
def runRound (clients : List Client) (auth_tokens : List String)
    (rnd : String × String → Nat × Nat) (probe : String → NetResponse)
    (claim : ClaimRequest → NetResponse)
    (targets : List (String × String)) :
    List (Option RoundResult × Bool) :=
  targets.map (fun t =>
    monitorTask clients (rnd t).1 (rnd t).2 auth_tokens probe claim t.1 t.2)

/-- The tuples a round emits to the output sink (every task that did
not panic). -/
def emittedResults (clients : List Client) (auth_tokens : List String)
    (rnd : String × String → Nat × Nat) (probe : String → NetResponse)
    (claim : ClaimRequest → NetResponse)
    (targets : List (String × String)) : List RoundResult :=
  (runRound clients auth_tokens rnd probe claim targets).filterMap Prod.fst

/-- `str::lines` on the file content, at the character level: split on
the newline character. (Rust also strips a trailing `\r`; the
subsequent `trim` of each line removes it as well, so the token lists
agree.) -/
def splitLinesGo (cs : List Char) (acc : List Char) : List (List Char) :=
  match cs with
  | [] => [acc.reverse]
  | c :: rest =>
    if c = '\n' then acc.reverse :: splitLinesGo rest []
    else splitLinesGo rest (c :: acc)

/-- Drop leading whitespace characters. -/
def dropLeadingWs (cs : List Char) : List Char :=
  match cs with
  | [] => []
  | c :: rest => if c.isWhitespace then dropLeadingWs rest else c :: rest

/-- `str::trim` on one line, at the character level: drop whitespace
from both ends. -/
def trimChars (cs : List Char) : List Char :=
  ((dropLeadingWs cs.reverse).reverse |> dropLeadingWs)

/-- The token-collection loop of `load_tokens_from_file`
(main.rs lines 287-296): trim each line, skip empty tokens, and keep a
token only when the `HashSet` insert reports it unseen. `seen` carries
the tokens already taken (list membership models `HashSet` members). -/
def dedupTokens (lines : List (List Char)) (seen : List String) :
    List String :=
  match lines with
  | [] => []
  | line :: rest =>
    let token : String := (trimChars line).asString
    if token = "" then dedupTokens rest seen
    else if token ∈ seen then dedupTokens rest seen
    else token :: dedupTokens rest (token :: seen)

/-- `load_tokens_from_file` (main.rs lines 270-314), with the file
content passed in directly (path discovery and `fs::read_to_string`
are I/O around this computation): the ordered de-duplicated token
list. -/
def load_tokens_from_file (content : String) : List String :=
  dedupTokens (splitLinesGo content.data []) []

/-- The trimmed non-blank lines of the content, in input order: the
token stream before de-duplication. -/
def trimmedNonBlankLines (content : String) : List String :=
  ((splitLinesGo content.data []).map
    (fun l => (trimChars l).asString)).filter (fun tk => tk ≠ "")

/-- Modelled from the spec's words, for comparison with
`load_tokens_from_file`: keep each distinct token exactly once, in the
order of its first occurrence. -/
def specFirstOccurrenceDedup (xs : List String) : List String :=
  xs.foldl (fun acc tk => if tk ∈ acc then acc else acc ++ [tk]) []

/-! ## Helper lemmas -/

theorem chooseClient_eq_none_iff (clients : List Client) (k : Nat) :
    chooseClient clients k = none ↔ clients = [] := by
  unfold chooseClient
  rw [List.getElem?_eq_none_iff]
  constructor
  · intro hle
    by_contra hne
    have hpos : 0 < clients.length := List.length_pos.mpr hne
    exact absurd hle (Nat.not_le.mpr (Nat.mod_lt _ hpos))
  · intro he
    subst he
    simp

theorem chooseClient_isSome (clients : List Client) (k : Nat)
    (h : clients ≠ []) : ∃ c, chooseClient clients k = some c := by
  have hpos : 0 < clients.length := List.length_pos.mpr h
  have hlt : k % clients.length < clients.length := Nat.mod_lt _ hpos
  exact ⟨clients.get ⟨k % clients.length, hlt⟩, List.getElem?_eq_getElem hlt⟩

theorem checkAccountExists_of_ne (clients : List Client) (k : Nat)
    (probe : String → NetResponse) (uuid : String) (h : clients ≠ []) :
    checkAccountExists clients k probe uuid =
      some (match probe uuid with
        | Except.error e => Except.error e
        | Except.ok status => Except.ok (status == 204, status)) := by
  obtain ⟨c, hc⟩ := chooseClient_isSome clients k h
  unfold checkAccountExists
  rw [hc]

/-! ## Claims -/

/-- Claim C1: in a monitor task, `attempt_claim` is called exactly when
the probe returned `is_available = true` with a raw status other than
429. -/
theorem claim_attempt_iff_probe_available_not_429
    (clients : List Client) (kCheck kClaim : Nat)
    (auth_tokens : List String) (probe : String → NetResponse)
    (claim : ClaimRequest → NetResponse) (name uuid : String) :
    (monitorTask clients kCheck kClaim auth_tokens probe claim name uuid).2
        = true ↔
      ∃ s, checkAccountExists clients kCheck probe uuid =
          some (Except.ok (true, s)) ∧ s ≠ 429 := by
  rcases hc : checkAccountExists clients kCheck probe uuid with _ | r
  · simp [monitorTask, hc]
  · rcases r with e | ⟨avail, st⟩
    · simp [monitorTask, hc]
    · by_cases h429 : st = 429
      · subst h429
        simp [monitorTask, hc]
      · cases avail
        · simp [monitorTask, hc, h429]
        · simp [monitorTask, hc, h429]

/-- Claim C3: with a non-empty pool, a probe that yields an HTTP
response classifies availability as `status == 204` and passes the raw
status through unmodified. -/
theorem check_account_exists_available_iff_204
    (clients : List Client) (k : Nat) (probe : String → NetResponse)
    (uuid : String) (s : Nat) (h : clients ≠ [])
    (hp : probe uuid = Except.ok s) :
    checkAccountExists clients k probe uuid =
        some (Except.ok (s == 204, s)) ∧
      ((s == 204) = true ↔ s = 204) := by
  refine ⟨?_, by simp⟩
  rw [checkAccountExists_of_ne clients k probe uuid h, hp]

/-- Witness for claim C3 at a concrete input. -/
theorem check_account_exists_available_iff_204_witness :
    checkAccountExists [buildClient "2a0e:97c0:3e:ada::0"] 0
        (fun _ => Except.ok 204) "u1" =
        some (Except.ok ((204 == 204), 204)) ∧
      (((204 : Nat) == 204) = true ↔ (204 : Nat) = 204) :=
  check_account_exists_available_iff_204 [buildClient "2a0e:97c0:3e:ada::0"]
    0 (fun _ => Except.ok 204) "u1" 204 (by decide) rfl

/-- Claim C4: a probe that completes with status 429 yields the
rate-limited tuple — status text `"429"`, emphasis flag `false`, red
classification — and no claim attempt. -/
theorem probe_429_yields_rate_limited_result
    (clients : List Client) (kCheck kClaim : Nat)
    (auth_tokens : List String) (probe : String → NetResponse)
    (claim : ClaimRequest → NetResponse) (name uuid : String)
    (h : clients ≠ []) (hp : probe uuid = Except.ok 429) :
    monitorTask clients kCheck kClaim auth_tokens probe claim name uuid =
      (some { name := name, uuid := uuid, statusText := "429",
              is_important := false, statusColor := Color.red }, false) := by
  have hce := checkAccountExists_of_ne clients kCheck probe uuid h
  rw [hp] at hce
  simp [monitorTask, hce]
  rfl

/-- Witness for claim C4 at a concrete input. -/
theorem probe_429_yields_rate_limited_result_witness :
    monitorTask [buildClient "2a0e:97c0:3e:ada::0"] 0 0 ["tokA"]
        (fun _ => Except.ok 429) (fun _ => Except.ok 200) "alice" "u1" =
      (some { name := "alice", uuid := "u1", statusText := "429",
              is_important := false, statusColor := Color.red }, false) :=
  probe_429_yields_rate_limited_result [buildClient "2a0e:97c0:3e:ada::0"]
    0 0 ["tokA"] (fun _ => Except.ok 429) (fun _ => Except.ok 200)
    "alice" "u1" (by decide) rfl

/-- Claim C6: with zero credentials, `attempt_claim` returns the
configuration-error `Err` (no panic) and issues no HTTP request. -/
theorem attempt_claim_no_tokens_config_error
    (clients : List Client) (k : Nat) (claim : ClaimRequest → NetResponse)
    (name : String) (auth_tokens : List String) (h : auth_tokens = []) :
    attemptClaim clients k auth_tokens claim name =
      (some (Except.error "No authentication tokens available"), []) := by
  subst h
  rfl

/-- Witness for claim C6 at a concrete input. -/
theorem attempt_claim_no_tokens_config_error_witness :
    attemptClaim [buildClient "2a0e:97c0:3e:ada::0"] 0 []
        (fun _ => Except.ok 200) "alice" =
      (some (Except.error "No authentication tokens available"), []) :=
  attempt_claim_no_tokens_config_error [buildClient "2a0e:97c0:3e:ada::0"]
    0 (fun _ => Except.ok 200) "alice" [] rfl

/-- Claim C7: every HTTP request issued by `attempt_claim` carries the
bearer header built from the first credential, and the result does not
depend on the credentials at later positions. -/
theorem attempt_claim_uses_first_token_only
    (clients : List Client) (k : Nat) (claim : ClaimRequest → NetResponse)
    (name : String) (t : String) (rest rest2 : List String) :
    ((attemptClaim clients k (t :: rest) claim name).2.all
        (fun req => req.authorization == "Bearer " ++ t)) = true ∧
      attemptClaim clients k (t :: rest) claim name =
        attemptClaim clients k (t :: rest2) claim name := by
  constructor
  · rcases hch : chooseClient clients k with _ | c
    · simp [attemptClaim, hch]
    · rcases hcl : claim ⟨claimUrl name, "Bearer " ++ t⟩ with e | s <;>
        simp [attemptClaim, hch, hcl]
  · simp [attemptClaim]

theorem monitorTask_available_claim
    (clients : List Client) (kCheck kClaim : Nat) (t : String)
    (rest : List String) (probe : String → NetResponse)
    (claim : ClaimRequest → NetResponse) (name uuid : String) (c : Nat)
    (h : clients ≠ []) (hp : probe uuid = Except.ok 204)
    (hcl : claim ⟨claimUrl name, "Bearer " ++ t⟩ = Except.ok c) :
    monitorTask clients kCheck kClaim (t :: rest) probe claim name uuid =
      (some { name := name, uuid := uuid
              statusText :=
                if c == 200 then "CLAIMED (" ++ toString c ++ ")"
                else "FAILED TO CLAIM (" ++ toString c ++ ")"
              is_important := true, statusColor := Color.green }, true) := by
  have hce := checkAccountExists_of_ne clients kCheck probe uuid h
  rw [hp] at hce
  obtain ⟨cc, hch⟩ := chooseClient_isSome clients kClaim h
  simp [monitorTask, hce, attemptClaim, hch, hcl]

/-- Counterexample to claim C5: with probe status 204 and claim status
403, the emitted failed-claim result carries the positive emphasis pair
(`is_important = true`, green), not the neutral one the claim asserts
for a failed claim. -/
theorem failed_claim_emphasis_counterexample :
    ((monitorTask [buildClient "2a0e:97c0:3e:ada::0"] 0 0 ["tokA"]
        (fun _ => Except.ok 204) (fun _ => Except.ok 403)
        "alice" "u1").1.map
          (fun r => (r.statusText, r.is_important, r.statusColor))) =
        some ("FAILED TO CLAIM (403)", true, Color.green) ∧
      ((true, Color.green) ≠ (false, Color.white)) := by
  decide

/-- Claim C5 as amended: probe 204 followed by a completed claim yields
outcome `"CLAIMED (<status>)"` when the claim status is 200 and
`"FAILED TO CLAIM (<status>)"` otherwise, and in both cases the
emphasis flag is `true` and the classification green. -/
theorem claim_outcome_strings_and_emphasis
    (clients : List Client) (kCheck kClaim : Nat) (t : String)
    (rest : List String) (probe : String → NetResponse)
    (claim : ClaimRequest → NetResponse) (name uuid : String) (c : Nat)
    (h : clients ≠ []) (hp : probe uuid = Except.ok 204)
    (hcl : claim ⟨claimUrl name, "Bearer " ++ t⟩ = Except.ok c) :
    monitorTask clients kCheck kClaim (t :: rest) probe claim name uuid =
      (some { name := name, uuid := uuid
              statusText :=
                if c == 200 then "CLAIMED (" ++ toString c ++ ")"
                else "FAILED TO CLAIM (" ++ toString c ++ ")"
              is_important := true, statusColor := Color.green }, true) :=
  monitorTask_available_claim clients kCheck kClaim t rest probe claim
    name uuid c h hp hcl

/-- Witness for the amended claim C5 at a concrete input. -/
theorem claim_outcome_strings_and_emphasis_witness :
    monitorTask [buildClient "2a0e:97c0:3e:ada::0"] 0 0 ["tokA"]
        (fun _ => Except.ok 204) (fun _ => Except.ok 200) "alice" "u1" =
      (some { name := "alice", uuid := "u1"
              statusText :=
                if (200 : Nat) == 200 then "CLAIMED (" ++ toString (200 : Nat) ++ ")"
                else "FAILED TO CLAIM (" ++ toString (200 : Nat) ++ ")"
              is_important := true, statusColor := Color.green }, true) :=
  claim_outcome_strings_and_emphasis [buildClient "2a0e:97c0:3e:ada::0"]
    0 0 "tokA" [] (fun _ => Except.ok 204) (fun _ => Except.ok 200)
    "alice" "u1" 200 (by decide) rfl rfl

/-- Claim C9: the rate-limit classification inspects only the probe's
status — a 429 from the claim endpoint still yields
`"FAILED TO CLAIM (429)"` with the positive flag and green
classification. -/
theorem rate_limit_checks_probe_status_only
    (clients : List Client) (kCheck kClaim : Nat) (t : String)
    (rest : List String) (probe : String → NetResponse)
    (claim : ClaimRequest → NetResponse) (name uuid : String)
    (h : clients ≠ []) (hp : probe uuid = Except.ok 204)
    (hcl : claim ⟨claimUrl name, "Bearer " ++ t⟩ = Except.ok 429) :
    monitorTask clients kCheck kClaim (t :: rest) probe claim name uuid =
      (some { name := name, uuid := uuid
              statusText := "FAILED TO CLAIM (429)"
              is_important := true, statusColor := Color.green }, true) := by
  rw [monitorTask_available_claim clients kCheck kClaim t rest probe claim
    name uuid 429 h hp hcl]
  rfl

/-- Witness for claim C9 at a concrete input. -/
theorem rate_limit_checks_probe_status_only_witness :
    monitorTask [buildClient "2a0e:97c0:3e:ada::0"] 0 0 ["tokA"]
        (fun _ => Except.ok 204) (fun _ => Except.ok 429) "alice" "u1" =
      (some { name := "alice", uuid := "u1"
              statusText := "FAILED TO CLAIM (429)"
              is_important := true, statusColor := Color.green }, true) :=
  rate_limit_checks_probe_status_only [buildClient "2a0e:97c0:3e:ada::0"]
    0 0 "tokA" [] (fun _ => Except.ok 204) (fun _ => Except.ok 429)
    "alice" "u1" (by decide) rfl rfl

/-- Claim C10: the random client selection is unwrapped, so both
`check_account_exists` and `attempt_claim` (with at least one
credential) panic exactly when the pool is empty; a pool built from a
non-empty address list is non-empty, making the panic unreachable. -/
theorem empty_client_pool_panics
    (clients : List Client) (kCheck kClaim : Nat)
    (probe : String → NetResponse) (claim : ClaimRequest → NetResponse)
    (name uuid : String) (auth_tokens : List String) (t : String)
    (rest : List String) (ips : List String) (h : auth_tokens = t :: rest) :
    (checkAccountExists clients kCheck probe uuid = none ↔ clients = []) ∧
      ((attemptClaim clients kClaim auth_tokens claim name).1 = none ↔
        clients = []) ∧
      ((NameChecker.new auth_tokens ips).clients = [] ↔ ips = []) := by
  subst h
  refine ⟨?_, ?_, ?_⟩
  · constructor
    · intro hn
      by_contra hne
      obtain ⟨c, hc⟩ := chooseClient_isSome clients kCheck hne
      rw [checkAccountExists_of_ne clients kCheck probe uuid hne] at hn
      cases hn
    · intro he
      subst he
      rfl
  · constructor
    · intro hn
      by_contra hne
      obtain ⟨c, hc⟩ := chooseClient_isSome clients kClaim hne
      rcases hcl : claim ⟨claimUrl name, "Bearer " ++ t⟩ with e | s <;>
        simp [attemptClaim, hc, hcl] at hn
    · intro he
      subst he
      simp [attemptClaim, chooseClient]
  · simp [NameChecker.new]

theorem monitorTask_fst_name_uuid
    (clients : List Client) (kCheck kClaim : Nat)
    (auth_tokens : List String) (probe : String → NetResponse)
    (claim : ClaimRequest → NetResponse) (name uuid : String)
    (h : clients ≠ []) :
    ∃ r : RoundResult,
      (monitorTask clients kCheck kClaim auth_tokens probe claim name uuid).1
          = some r ∧ r.name = name ∧ r.uuid = uuid := by
  have hce := checkAccountExists_of_ne clients kCheck probe uuid h
  rcases hpu : probe uuid with e | st
  · rw [hpu] at hce
    exact ⟨{ name := name, uuid := uuid, statusText := "ERROR: " ++ e
             is_important := false, statusColor := Color.white },
      by simp [monitorTask, hce], rfl, rfl⟩
  · rw [hpu] at hce
    by_cases h429 : st = 429
    · subst h429
      exact ⟨{ name := name, uuid := uuid, statusText := toString (429 : Nat)
               is_important := false, statusColor := Color.red },
        by simp [monitorTask, hce], rfl, rfl⟩
    · by_cases h204 : st = 204
      · subst h204
        rcases ht : auth_tokens with _ | ⟨t, rest⟩
        · exact ⟨{ name := name, uuid := uuid
                   statusText := "ERROR: No authentication tokens available"
                   is_important := false, statusColor := Color.white },
            by simp [monitorTask, hce, attemptClaim], rfl, rfl⟩
        · obtain ⟨c, hch⟩ := chooseClient_isSome clients kClaim h
          rcases hcl : claim ⟨claimUrl name, "Bearer " ++ t⟩ with e2 | s2
          · exact ⟨{ name := name, uuid := uuid
                     statusText := "ERROR: " ++ e2
                     is_important := false, statusColor := Color.white },
              by simp [monitorTask, hce, attemptClaim, hch, hcl], rfl, rfl⟩
          · exact ⟨{ name := name, uuid := uuid
                     statusText :=
                       if s2 == 200 then "CLAIMED (" ++ toString s2 ++ ")"
                       else "FAILED TO CLAIM (" ++ toString s2 ++ ")"
                     is_important := true, statusColor := Color.green },
              by simp [monitorTask, hce, attemptClaim, hch, hcl], rfl, rfl⟩
      · have hb : (st == 204) = false := by simp [h204]
        have hb9 : (st == 429) = false := by simp [h429]
        exact ⟨{ name := name, uuid := uuid, statusText := toString st
                 is_important := false, statusColor := Color.white },
          by simp [monitorTask, hce, hb, hb9], rfl, rfl⟩

theorem emittedResults_cons (clients : List Client)
    (auth_tokens : List String) (rnd : String × String → Nat × Nat)
    (probe : String → NetResponse) (claim : ClaimRequest → NetResponse)
    (tg : String × String) (ts : List (String × String)) (r : RoundResult)
    (hr : (monitorTask clients (rnd tg).1 (rnd tg).2 auth_tokens probe claim
            tg.1 tg.2).1 = some r) :
    emittedResults clients auth_tokens rnd probe claim (tg :: ts) =
      r :: emittedResults clients auth_tokens rnd probe claim ts := by
  simp [emittedResults, runRound, List.filterMap_cons, hr]

theorem emittedResults_length (clients : List Client)
    (auth_tokens : List String) (rnd : String × String → Nat × Nat)
    (probe : String → NetResponse) (claim : ClaimRequest → NetResponse)
    (h : clients ≠ []) :
    ∀ targets : List (String × String),
      (emittedResults clients auth_tokens rnd probe claim targets).length =
        targets.length := by
  intro targets
  induction targets with
  | nil => rfl
  | cons tg ts ih =>
    obtain ⟨r, hr, _, _⟩ := monitorTask_fst_name_uuid clients (rnd tg).1
      (rnd tg).2 auth_tokens probe claim tg.1 tg.2 h
    rw [emittedResults_cons clients auth_tokens rnd probe claim tg ts r hr]
    simp [ih]

theorem emittedResults_countP (clients : List Client)
    (auth_tokens : List String) (rnd : String × String → Nat × Nat)
    (probe : String → NetResponse) (claim : ClaimRequest → NetResponse)
    (h : clients ≠ []) :
    ∀ (targets : List (String × String)) (n u : String),
      (emittedResults clients auth_tokens rnd probe claim targets).countP
          (fun r => decide (r.name = n ∧ r.uuid = u)) =
        targets.countP (fun p => decide (p.1 = n ∧ p.2 = u)) := by
  intro targets
  induction targets with
  | nil => intro n u; rfl
  | cons tg ts ih =>
    intro n u
    obtain ⟨r, hr, hrn, hru⟩ := monitorTask_fst_name_uuid clients (rnd tg).1
      (rnd tg).2 auth_tokens probe claim tg.1 tg.2 h
    rw [emittedResults_cons clients auth_tokens rnd probe claim tg ts r hr,
      List.countP_cons, List.countP_cons, ih n u, hrn, hru]

theorem countP_pair_eq_one_of_nodup_names :
    ∀ (l : List (String × String)) (t : String × String),
      (l.map Prod.fst).Nodup → t ∈ l →
      l.countP (fun p => decide (p.1 = t.1 ∧ p.2 = t.2)) = 1 := by
  intro l
  induction l with
  | nil =>
    intro t _ ht
    cases ht
  | cons q qs ih =>
    intro t hn ht
    rw [List.map_cons, List.nodup_cons] at hn
    obtain ⟨hq, hqs⟩ := hn
    rw [List.countP_cons]
    rcases List.mem_cons.mp ht with heq | hmem
    · subst heq
      have hz : qs.countP (fun p => decide (p.1 = t.1 ∧ p.2 = t.2)) = 0 := by
        rw [List.countP_eq_zero]
        intro p hp hcon
        have hpt : p.1 = t.1 ∧ p.2 = t.2 := of_decide_eq_true hcon
        exact hq (hpt.1 ▸ List.mem_map_of_mem Prod.fst hp)
      rw [hz]
      simp
    · have hne : ¬(q.1 = t.1 ∧ q.2 = t.2) := by
        intro hcon
        exact hq (hcon.1 ▸ List.mem_map_of_mem Prod.fst hmem)
      rw [ih t hqs hmem]
      simp [hne]

/-- Claim C2: with a non-empty pool and the snapshot's names unique
(keys of the target map), a round emits exactly one result tuple per
target of the snapshot: as many tuples as targets, and each target's
(name, uuid) pair counted exactly once among the emitted tuples. -/
theorem round_emits_exactly_one_result_per_target
    (clients : List Client) (auth_tokens : List String)
    (rnd : String × String → Nat × Nat) (probe : String → NetResponse)
    (claim : ClaimRequest → NetResponse)
    (targets : List (String × String)) (h : clients ≠ [])
    (hn : (targets.map Prod.fst).Nodup) :
    (emittedResults clients auth_tokens rnd probe claim targets).length =
        targets.length ∧
      (targets.all (fun t =>
        (emittedResults clients auth_tokens rnd probe claim targets).countP
            (fun r => decide (r.name = t.1 ∧ r.uuid = t.2)) == 1)) = true := by
  refine ⟨emittedResults_length clients auth_tokens rnd probe claim h targets,
    ?_⟩
  rw [List.all_eq_true]
  intro t ht
  rw [beq_iff_eq,
    emittedResults_countP clients auth_tokens rnd probe claim h targets t.1
      t.2]
  exact countP_pair_eq_one_of_nodup_names targets t hn ht

/-- Witness for claim C2 at a concrete two-target round. -/
theorem round_emits_exactly_one_result_per_target_witness :
    (emittedResults [buildClient "2a0e:97c0:3e:ada::0"] ["tokA"]
          (fun _ => (0, 0))
          (fun u => if u = "u1" then Except.ok 204 else Except.ok 404)
          (fun _ => Except.ok 200)
          [("alice", "u1"), ("bob", "u2")]).length =
        ([("alice", "u1"), ("bob", "u2")] : List (String × String)).length ∧
      (([("alice", "u1"), ("bob", "u2")] : List (String × String)).all
        (fun t =>
          (emittedResults [buildClient "2a0e:97c0:3e:ada::0"] ["tokA"]
              (fun _ => (0, 0))
              (fun u => if u = "u1" then Except.ok 204 else Except.ok 404)
              (fun _ => Except.ok 200)
              [("alice", "u1"), ("bob", "u2")]).countP
              (fun r => decide (r.name = t.1 ∧ r.uuid = t.2)) == 1)) = true :=
  round_emits_exactly_one_result_per_target
    [buildClient "2a0e:97c0:3e:ada::0"] ["tokA"] (fun _ => (0, 0))
    (fun u => if u = "u1" then Except.ok 204 else Except.ok 404)
    (fun _ => Except.ok 200) [("alice", "u1"), ("bob", "u2")]
    (by decide) (by decide)

theorem dedupTokens_mem :
    ∀ (lines : List (List Char)) (seen : List String) (tk : String),
      tk ∈ dedupTokens lines seen → tk ∉ seen ∧ tk ≠ "" := by
  intro lines
  induction lines with
  | nil =>
    intro seen tk htk
    simp [dedupTokens] at htk
  | cons line rest ih =>
    intro seen tk htk
    simp only [dedupTokens] at htk
    by_cases h0 : (trimChars line).asString = ""
    · rw [if_pos h0] at htk
      exact ih seen tk htk
    · rw [if_neg h0] at htk
      by_cases h1 : (trimChars line).asString ∈ seen
      · rw [if_pos h1] at htk
        exact ih seen tk htk
      · rw [if_neg h1] at htk
        rcases List.mem_cons.mp htk with heq | hmem
        · subst heq
          exact ⟨h1, h0⟩
        · obtain ⟨hnotin, hne⟩ := ih ((trimChars line).asString :: seen) tk hmem
          exact ⟨fun hc => hnotin (List.mem_cons_of_mem _ hc), hne⟩

theorem dedupTokens_nodup :
    ∀ (lines : List (List Char)) (seen : List String),
      (dedupTokens lines seen).Nodup := by
  intro lines
  induction lines with
  | nil =>
    intro seen
    simp [dedupTokens]
  | cons line rest ih =>
    intro seen
    simp only [dedupTokens]
    by_cases h0 : (trimChars line).asString = ""
    · rw [if_pos h0]
      exact ih seen
    · rw [if_neg h0]
      by_cases h1 : (trimChars line).asString ∈ seen
      · rw [if_pos h1]
        exact ih seen
      · rw [if_neg h1]
        rw [List.nodup_cons]
        refine ⟨?_, ih _⟩
        intro hmem
        obtain ⟨hnotin, _⟩ := dedupTokens_mem rest _ _ hmem
        exact hnotin (List.mem_cons_self _ _)

theorem dedupTokens_congr :
    ∀ (lines : List (List Char)) (s1 s2 : List String),
      (∀ tk : String, tk ∈ s1 ↔ tk ∈ s2) →
      dedupTokens lines s1 = dedupTokens lines s2 := by
  intro lines
  induction lines with
  | nil =>
    intro s1 s2 _
    rfl
  | cons line rest ih =>
    intro s1 s2 hs
    simp only [dedupTokens]
    by_cases h0 : (trimChars line).asString = ""
    · rw [if_pos h0, if_pos h0]
      exact ih s1 s2 hs
    · rw [if_neg h0, if_neg h0]
      by_cases h1 : (trimChars line).asString ∈ s1
      · rw [if_pos h1, if_pos ((hs _).mp h1)]
        exact ih s1 s2 hs
      · rw [if_neg h1, if_neg (fun hc => h1 ((hs _).mpr hc))]
        exact congrArg (List.cons _)
          (ih _ _ (by intro tk; simp [List.mem_cons, hs tk]))

theorem foldl_dedup :
    ∀ (lines : List (List Char)) (acc : List String),
      ((lines.map (fun l => (trimChars l).asString)).filter
          (fun tk => tk ≠ "")).foldl
          (fun acc2 tk => if tk ∈ acc2 then acc2 else acc2 ++ [tk]) acc =
        acc ++ dedupTokens lines acc := by
  intro lines
  induction lines with
  | nil =>
    intro acc
    simp [dedupTokens]
  | cons line rest ih =>
    intro acc
    simp only [List.map_cons, List.filter_cons, dedupTokens]
    by_cases h0 : (trimChars line).asString = ""
    · rw [if_pos h0,
        if_neg (show ¬((decide ¬((trimChars line).asString = "")) = true)
          from by simp [h0])]
      exact ih acc
    · rw [if_neg h0,
        if_pos (show (decide ¬((trimChars line).asString = "")) = true
          from by simp [h0]),
        List.foldl_cons]
      show List.foldl _
        (if (trimChars line).asString ∈ acc then acc
         else acc ++ [(trimChars line).asString]) _ = _
      by_cases h1 : (trimChars line).asString ∈ acc
      · rw [if_pos h1, if_pos h1]
        exact ih acc
      · rw [if_neg h1, if_neg h1, ih (acc ++ [(trimChars line).asString]),
          dedupTokens_congr rest (acc ++ [(trimChars line).asString])
            ((trimChars line).asString :: acc)
            (by intro tk; simp [List.mem_append, List.mem_cons, or_comm]),
          List.append_cons]
        simp

/-- Claim C8: the loaded token list has no duplicates and no empty
strings, and equals the spec-worded first-occurrence de-duplication of
the trimmed non-blank lines of the input. -/
theorem load_tokens_dedup_first_occurrence (content : String) :
    (load_tokens_from_file content).Nodup ∧
      ((load_tokens_from_file content).all (fun tk => tk ≠ "")) = true ∧
      load_tokens_from_file content =
        specFirstOccurrenceDedup (trimmedNonBlankLines content) := by
  refine ⟨dedupTokens_nodup _ [], ?_, ?_⟩
  · rw [List.all_eq_true]
    intro tk htk
    exact decide_eq_true (dedupTokens_mem _ [] tk htk).2
  · unfold load_tokens_from_file trimmedNonBlankLines specFirstOccurrenceDedup
    rw [foldl_dedup (splitLinesGo content.data []) []]
    rfl

/-- Witness for claim C10 at concrete inputs. -/
theorem empty_client_pool_panics_witness :
    (checkAccountExists [] 0 (fun _ => Except.ok 204) "u1" = none ↔
        ([] : List Client) = []) ∧
      ((attemptClaim [] 0 ["tokA"] (fun _ => Except.ok 200) "alice").1 =
          none ↔ ([] : List Client) = []) ∧
      ((NameChecker.new ["tokA"] ["2a0e:97c0:3e:ada::0"]).clients = [] ↔
        (["2a0e:97c0:3e:ada::0"] : List String) = []) :=
  empty_client_pool_panics [] 0 0 (fun _ => Except.ok 204)
    (fun _ => Except.ok 200) "alice" "u1" ["tokA"] "tokA" []
    ["2a0e:97c0:3e:ada::0"] rfl

end MC
